import Mathlib

/-!
Verification of the keyword-intelligence backend (src/backend/main.py).

Python strings are modelled as lists of characters; Python ints as Int
(Nat for lengths).  The external model/library collaborators (sklearn
TfidfVectorizer, KeyBERT, spaCy, the two transformers pipelines, pypdf)
are parameters of an environment record: their scores, outputs and
possible exceptions are arbitrary, while the orchestration code around
them is translated statement by statement from the source.
-/

/-- Python strings as lists of characters. -/
abbrev Str := List Char

/-- Python str.strip(): remove leading and trailing whitespace. -/
def pyStrip (s : Str) : Str :=
  ((s.dropWhile Char.isWhitespace).reverse.dropWhile Char.isWhitespace).reverse

/-- Constant MIN_KEYWORDS from main.py. -/
def MIN_KEYWORDS : Int := 1

/-- Constant MAX_KEYWORDS from main.py. -/
def MAX_KEYWORDS : Int := 50

/-- Constant MIN_NGRAM from main.py. -/
def MIN_NGRAM : Int := 1

/-- Constant MAX_NGRAM from main.py. -/
def MAX_NGRAM : Int := 5

/-- Constant MIN_TEXT_LENGTH from main.py. -/
def MIN_TEXT_LENGTH : Nat := 10

/-- Constant MAX_TEXT_LENGTH from main.py. -/
def MAX_TEXT_LENGTH : Nat := 50000

/-- Constant MAX_PHRASES from main.py. -/
def MAX_PHRASES : Nat := 20

/-- Validation failures (and HTTP-level failure kinds) of the two endpoints. -/
inductive VErr where
  | textTooShort
  | textTooLong
  | topNOutOfBounds
  | ngMinOutOfBounds
  | ngMaxOutOfBounds
  | ngOrder
  | noText
  | badFileType
  | emptyFile
  | pdfFailed
  | serverError
  deriving DecidableEq, Repr

/-- The pydantic model ExtractRequest after validation. -/
structure ExtractRequest where
  text : Option Str
  top_n : Int
  ng_min : Int
  ng_max : Int
  deriving DecidableEq, Repr

/-- Field validator validate_text of ExtractRequest: a provided text is
stripped and its stripped length checked against the two bounds; the
stripped text is what the model stores. -/
def validate_text (v : Option Str) : Except VErr (Option Str) :=
  match v with
  | none => .ok none
  | some v =>
    let w := pyStrip v
    if w.length < MIN_TEXT_LENGTH then .error .textTooShort
    else if MAX_TEXT_LENGTH < w.length then .error .textTooLong
    else .ok (some w)

/-- Pydantic validation of ExtractRequest.  Pydantic v2 validates fields in
declaration order (text, top_n, ng_min, ng_max) and reports the collected
errors in that order, so the first reported error is computed by checking
the constraints sequentially: the text validator, then the ge/le bounds of
top_n, ng_min and ng_max, and last the ng_max field validator comparing
ng_max with ng_min, which pydantic only runs when ng_max passed its own
bounds and ng_min is present in info.data, i.e. passed its bounds. -/
def pydanticValidate (text : Option Str) (top_n ng_min ng_max : Int) :
    Except VErr ExtractRequest :=
  match validate_text text with
  | .error e => .error e
  | .ok t =>
    if top_n < MIN_KEYWORDS then .error .topNOutOfBounds
    else if MAX_KEYWORDS < top_n then .error .topNOutOfBounds
    else if ng_min < MIN_NGRAM then .error .ngMinOutOfBounds
    else if MAX_NGRAM < ng_min then .error .ngMinOutOfBounds
    else if ng_max < MIN_NGRAM then .error .ngMaxOutOfBounds
    else if MAX_NGRAM < ng_max then .error .ngMaxOutOfBounds
    else if ng_max < ng_min then .error .ngOrder
    else .ok { text := t, top_n := top_n, ng_min := ng_min, ng_max := ng_max }

/-- Tokenization helper: collect maximal runs of alphanumeric characters. -/
def tokenizeAux : List Char → List Char → List Str
  | [], acc => if acc = [] then [] else [acc.reverse]
  | c :: cs, acc =>
    if c.isAlphanum then tokenizeAux cs (c :: acc)
    else if acc = [] then tokenizeAux cs []
    else acc.reverse :: tokenizeAux cs []

/-- Modelled from the spec at the sklearn/KeyBERT boundary: the word
tokenizer of the vectorizers (lowercasing, splitting the text into words). -/
def tokenize (s : Str) : List Str :=
  tokenizeAux (s.map Char.toLower) []

/-- The content words of a text: its tokens minus the stop-word list. -/
def contentTokens (stop : List Str) (s : Str) : List Str :=
  (tokenize s).filter (fun w => !(stop.contains w))

/-- Join a list of words with single spaces, as vectorizers render n-grams. -/
def joinSpace : List Str → Str
  | [] => []
  | [w] => w
  | w :: ws => w ++ ' ' :: joinSpace ws

/-- All contiguous n-grams of a fixed size n over a word list. -/
def ngramList (n : Nat) (ws : List Str) : List Str :=
  (List.range (ws.length + 1 - n)).map (fun i => joinSpace ((ws.drop i).take n))

/-- All contiguous n-grams with sizes in the inclusive range nmin..nmax. -/
def rawCandidates (nmin nmax : Nat) (ws : List Str) : List Str :=
  (List.range' nmin (nmax + 1 - nmin)).flatMap (fun n => ngramList n ws)

/-- Insert into a strictly sorted list, skipping duplicates. -/
def dedupInsert (x : Str) : List Str → List Str
  | [] => [x]
  | y :: ys =>
    if x < y then x :: y :: ys
    else if x = y then y :: ys
    else y :: dedupInsert x ys

/-- Sort a list of strings, removing duplicates.  Models the alphabetically
sorted vocabulary that get_feature_names_out returns. -/
def sortedDedup (l : List Str) : List Str := l.foldr dedupInsert []

/-- Modelled from the spec at the sklearn boundary: the vocabulary built by
the vectorizer, i.e. the in-range n-grams over the content words of the
text, deduplicated and alphabetically sorted. -/
def featureNames (stop : List Str) (s : Str) (nmin nmax : Nat) : List Str :=
  sortedDedup (rawCandidates nmin nmax (contentTokens stop s))

/-- Insert one element into a list sorted by descending key, placing it
before the first element of strictly smaller key.  An element inserted
later therefore stays after earlier elements of equal key: this is the
stability of Python sorted(..., reverse=True). -/
def insertDesc (key : Str → ℚ) (x : Str) : List Str → List Str
  | [] => [x]
  | y :: ys => if key y ≤ key x then x :: y :: ys else y :: insertDesc key x ys

/-- Stable sort by descending key: the semantics of the source line
sorted(scores, key=scores.get, reverse=True), whose input enumerates the
feature names in their stored (alphabetical) order. -/
def sortDescBy (key : Str → ℚ) : List Str → List Str
  | [] => []
  | a :: l => insertDesc key a (sortDescBy key l)

/-- Per-request view of the external collaborators: the loaded-model flags,
the score each model assigns to a candidate, the noun chunks the parser
produces, the model outputs of the two pipelines, and a flag per library
call telling whether it raises during this request. -/
structure Env where
  stop : List Str
  score : Str → ℚ
  tfidfExc : Bool
  kwLoaded : Bool
  kbScore : Str → ℚ
  kbExc : Bool
  nlpLoaded : Bool
  chunks : Str → List Str
  nlpExc : Bool
  summLoaded : Bool
  summRun : Str → Except Unit Str
  classLoaded : Bool
  classRun : Str → Except Unit (Option (List Str))

/-- The TF-IDF block of extract: fit the vectorizer (which raises when the
vocabulary is empty, e.g. all words are stop words), score every feature,
and keep the top_n features by descending score. -/
def tfidf_stage (env : Env) (text : Str) (nmin nmax top_n : Nat) :
    Except Unit (List Str) :=
  if env.tfidfExc then .error ()
  else
    let feats := featureNames env.stop text nmin nmax
    if feats = [] then .error ()
    else .ok ((sortDescBy env.score feats).take top_n)

/-- The KeyBERT block of extract: raises when the model is not loaded, the
library raises, or there are no candidate phrases; otherwise up to top_n
phrases by descending similarity. -/
def keybert_stage (env : Env) (text : Str) (nmin nmax top_n : Nat) :
    Except Unit (List Str) :=
  if !env.kwLoaded then .error ()
  else if env.kbExc then .error ()
  else
    let feats := featureNames env.stop text nmin nmax
    if feats = [] then .error ()
    else .ok ((sortDescBy env.kbScore feats).take top_n)

/-- The spaCy block of extract: raises when the model is not loaded or the
library raises; otherwise the first MAX_PHRASES noun chunks. -/
def phrase_stage (env : Env) (text : Str) : Except Unit (List Str) :=
  if !env.nlpLoaded then .error ()
  else if env.nlpExc then .error ()
  else .ok ((env.chunks text).take MAX_PHRASES)

/-- The summarization block of extract: summary starts out empty; when the
summarizer model is loaded, a text longer than 100 characters is truncated
to 1024 characters and summarized (an exception leaves the empty summary),
and a shorter text is returned unchanged.  When the model is not loaded
the summary stays empty. -/
def summary_stage (env : Env) (text : Str) : Str :=
  if env.summLoaded then
    if 100 < text.length then
      match env.summRun (text.take 1024) with
      | .ok s => s
      | .error _ => []
    else text
  else []

/-- The classification block of extract: when the classifier model is
loaded, the text is truncated to 512 characters and classified; a missing
labels key or an exception yields the empty list, as does an unloaded
model. -/
def topic_stage (env : Env) (text : Str) : List Str :=
  if env.classLoaded then
    match env.classRun (text.take 512) with
    | .ok (some ls) => ls
    | .ok none => []
    | .error _ => []
  else []

/-- The JSON record the extract endpoint returns. -/
structure Response where
  rule_keywords : List Str
  ml_keywords : List Str
  phrases : List Str
  summary : Str
  topic : List Str
  deriving DecidableEq, Repr

/-- Map a stage failure to the empty default, as the per-stage
try/except blocks of extract do. -/
def orEmpty (r : Except Unit (List Str)) : List Str :=
  match r with
  | .ok v => v
  | .error _ => []

/-- The body of the main try block of extract: strip the text once more and
run the five stages, each inside its own failure isolation. -/
def runExtract (env : Env) (t : Str) (top_n ng_min ng_max : Int) : Response :=
  let text := pyStrip t
  { rule_keywords := orEmpty (tfidf_stage env text ng_min.toNat ng_max.toNat top_n.toNat)
  , ml_keywords := orEmpty (keybert_stage env text ng_min.toNat ng_max.toNat top_n.toNat)
  , phrases := orEmpty (phrase_stage env text)
  , summary := summary_stage env text
  , topic := topic_stage env text }

/-- The handler body of POST /extract after pydantic parsing: the redundant
ng check, the missing/blank-text check (HTTP 400), then the stages. -/
def extract_body (env : Env) (p : ExtractRequest) : Except (Int × VErr) Response :=
  if p.ng_max < p.ng_min then .error (400, .ngOrder)
  else
    match p.text with
    | none => .error (400, .noText)
    | some t =>
      if pyStrip t = [] then .error (400, .noText)
      else .ok (runExtract env t p.top_n p.ng_min p.ng_max)

/-- POST /extract: pydantic validation (failure is HTTP 422), then the
handler body. -/
def extract (env : Env) (text : Option Str) (top_n ng_min ng_max : Int) :
    Except (Int × VErr) Response :=
  match pydanticValidate text top_n ng_min ng_max with
  | .error e => .error (422, e)
  | .ok p => extract_body env p

/-- Helper extract_text_from_pdf of main.py: pypdf reads the pages (it may
raise), their texts are concatenated with newlines, and an
empty-after-strip result raises; both failure modes surface as HTTP 400 at
the caller. -/
def extract_text_from_pdf (pdfPages : List Nat → Except Unit (List (Option Str)))
    (contents : List Nat) : Except Unit Str :=
  match pdfPages contents with
  | .error _ => .error ()
  | .ok pages =>
    let text := pages.foldl
      (fun acc pt => match pt with | some s => acc ++ s ++ ['\n'] | none => acc) []
    if pyStrip text = [] then .error () else .ok text

/-- Case-insensitive test that a filename ends in ".pdf". -/
def lowerEndsWithPdf (f : Str) : Bool :=
  ".pdf".toList.isSuffixOf (f.map Char.toLower)

/-- The tail of the PDF endpoint after the early guards: the result of PDF
extraction is checked for minimum length and fed through pydantic into the
handler body; a pydantic failure at this point is caught by the blanket
except-Exception clause and surfaced as HTTP 500. -/
def pdfTail (env : Env) (X : Except Unit Str) (top_n ng_min ng_max : Int) :
    Except (Int × VErr) Response :=
  match X with
  | .error _ => .error (400, .pdfFailed)
  | .ok text =>
    if (pyStrip text).length < MIN_TEXT_LENGTH then .error (400, .textTooShort)
    else
      match pydanticValidate (some text) top_n ng_min ng_max with
      | .error _ => .error (500, .serverError)
      | .ok p => extract_body env p

/-- POST /extract_pdf.  FastAPI validates the three Form parameters against
their ge/le bounds before the handler body runs (HTTP 422).  The handler
then checks the filename suffix, the emptiness of the upload, the n-gram
order, runs PDF extraction, checks the minimum length of the extracted
text, and constructs an ExtractRequest: a pydantic failure there (the
stripped text longer than MAX_TEXT_LENGTH) is caught by the blanket
except-Exception clause and surfaced as HTTP 500. -/
def extract_pdf (env : Env) (pdfPages : List Nat → Except Unit (List (Option Str)))
    (filename : Str) (contents : List Nat) (top_n ng_min ng_max : Int) :
    Except (Int × VErr) Response :=
  if top_n < MIN_KEYWORDS then .error (422, .topNOutOfBounds)
  else if MAX_KEYWORDS < top_n then .error (422, .topNOutOfBounds)
  else if ng_min < MIN_NGRAM then .error (422, .ngMinOutOfBounds)
  else if MAX_NGRAM < ng_min then .error (422, .ngMinOutOfBounds)
  else if ng_max < MIN_NGRAM then .error (422, .ngMaxOutOfBounds)
  else if MAX_NGRAM < ng_max then .error (422, .ngMaxOutOfBounds)
  else if !lowerEndsWithPdf filename then .error (400, .badFileType)
  else if contents.length = 0 then .error (400, .emptyFile)
  else if ng_max < ng_min then .error (400, .ngOrder)
  else pdfTail env (extract_text_from_pdf pdfPages contents) top_n ng_min ng_max

/-- The four module-level model globals of main.py after startup. -/
structure AppModels where
  nlp : Option Unit
  kw_model : Option Unit
  summarizer : Option Unit
  classifier : Option Unit
  deriving DecidableEq, Repr

/-- Startup hook load_models: a spaCy or KeyBERT load failure re-raises and
aborts startup; a summarizer or classifier load failure only leaves the
corresponding global at None. -/
def load_models (spacyRes keybertRes summRes classRes : Except Str Unit) :
    Except Str AppModels :=
  match spacyRes with
  | .error e => .error e
  | .ok _ =>
    match keybertRes with
    | .error e => .error e
    | .ok _ =>
      .ok { nlp := some (), kw_model := some ()
          , summarizer := summRes.toOption, classifier := classRes.toOption }

/-- The per-model readiness flags reported by GET /health. -/
structure HealthReport where
  spacy : Bool
  keybert : Bool
  summarizer : Bool
  classifier : Bool
  deriving DecidableEq, Repr

/-- GET /health: reports, per model, whether its global is not None. -/
def health_check (st : AppModels) : HealthReport :=
  { spacy := st.nlp.isSome, keybert := st.kw_model.isSome
  , summarizer := st.summarizer.isSome, classifier := st.classifier.isSome }

/-- The error component of an endpoint result, if any. -/
def errOf (r : Except (Int × VErr) Response) : Option (Int × VErr) :=
  match r with
  | .error p => some p
  | .ok _ => none

/-- The constraints a raw text-path input violates, listed in the order the
code checks them: the text length bounds (on the stripped text, when text
is provided), the top_n bounds, the ng_min bounds, the ng_max bounds, the
n-gram ordering (only when both n-gram values are within their absolute
bounds), and last the missing-text check of the handler (HTTP 400, all
others HTTP 422). -/
def violatedConstraints (text : Option Str) (top_n ng_min ng_max : Int) :
    List (Int × VErr) :=
  (match text with
   | some v =>
     if (pyStrip v).length < MIN_TEXT_LENGTH then [((422 : Int), VErr.textTooShort)]
     else if MAX_TEXT_LENGTH < (pyStrip v).length then [((422 : Int), VErr.textTooLong)]
     else []
   | none => [])
  ++ (if top_n < MIN_KEYWORDS then [((422 : Int), VErr.topNOutOfBounds)]
      else if MAX_KEYWORDS < top_n then [((422 : Int), VErr.topNOutOfBounds)] else [])
  ++ (if ng_min < MIN_NGRAM then [((422 : Int), VErr.ngMinOutOfBounds)]
      else if MAX_NGRAM < ng_min then [((422 : Int), VErr.ngMinOutOfBounds)] else [])
  ++ (if ng_max < MIN_NGRAM then [((422 : Int), VErr.ngMaxOutOfBounds)]
      else if MAX_NGRAM < ng_max then [((422 : Int), VErr.ngMaxOutOfBounds)] else [])
  ++ (if MIN_NGRAM ≤ ng_min ∧ ng_min ≤ MAX_NGRAM ∧ MIN_NGRAM ≤ ng_max ∧
         ng_max ≤ MAX_NGRAM ∧ ng_max < ng_min then [((422 : Int), VErr.ngOrder)] else [])
  ++ (match text with
      | none => [((400 : Int), VErr.noText)]
      | some _ => [])

/-- The tie-break relation of the lexical stage output: strictly larger
score first, alphabetical order of the n-gram text among equal scores. -/
def keyRel (key : Str → ℚ) (a b : Str) : Prop :=
  key b < key a ∨ (key a = key b ∧ a < b)

/-- Dropping a prefix of satisfying elements twice is the same as once. -/
theorem dropWhile_idem (p : Char → Bool) :
    ∀ l : List Char, (l.dropWhile p).dropWhile p = l.dropWhile p
  | [] => rfl
  | a :: l => by
    by_cases h : p a
    · simp [List.dropWhile_cons, h, dropWhile_idem p l]
    · simp [List.dropWhile_cons, h]

/-- A prefix of a list unchanged by dropWhile is itself unchanged. -/
theorem dropWhile_prefix_eq {p : Char → Bool} {m t : List Char}
    (hm : m.dropWhile p = m) (ht : t <+: m) : t.dropWhile p = t := by
  cases t with
  | nil => rfl
  | cons a t' =>
    obtain ⟨u, hu⟩ := ht
    cases m with
    | nil => exact absurd hu (by simp)
    | cons b m' =>
      have hab : a = b := by
        have h := congrArg List.head? hu
        simpa using h
      subst hab
      rw [List.dropWhile_eq_self_iff] at hm
      have h0 : 0 < (a :: m').length := by simp
      have hpa := hm h0
      simp only [List.get] at hpa
      simp [List.dropWhile_cons, hpa]

/-- Stripping trailing elements yields a prefix of the list. -/
theorem stripRight_prefix_self (p : Char → Bool) (m : List Char) :
    (m.reverse.dropWhile p).reverse <+: m := by
  rw [← List.reverse_suffix, List.reverse_reverse]
  exact List.dropWhile_suffix p

/-- Stripping is idempotent. -/
theorem pyStrip_idem (s : Str) : pyStrip (pyStrip s) = pyStrip s := by
  have hm : (s.dropWhile Char.isWhitespace).dropWhile Char.isWhitespace
      = s.dropWhile Char.isWhitespace := dropWhile_idem _ s
  have h1 : (pyStrip s).dropWhile Char.isWhitespace = pyStrip s :=
    dropWhile_prefix_eq hm (stripRight_prefix_self _ _)
  have h2 : pyStrip (pyStrip s)
      = ((((pyStrip s).dropWhile Char.isWhitespace).reverse).dropWhile
          Char.isWhitespace).reverse := rfl
  rw [h1] at h2
  have h3 : (pyStrip s).reverse
      = ((s.dropWhile Char.isWhitespace).reverse).dropWhile Char.isWhitespace := by
    show ((((s.dropWhile Char.isWhitespace).reverse).dropWhile
        Char.isWhitespace).reverse).reverse = _
    rw [List.reverse_reverse]
  rw [h3, dropWhile_idem] at h2
  exact h2

/-- Characterization of a successful pydantic validation of a provided text:
the stored request and the bounds all constraints enforce. -/
theorem pydanticValidate_some_ok {t : Str} {tn nmin nmax : Int} {p : ExtractRequest}
    (h : pydanticValidate (some t) tn nmin nmax = .ok p) :
    p = { text := some (pyStrip t), top_n := tn, ng_min := nmin, ng_max := nmax } ∧
    MIN_TEXT_LENGTH ≤ (pyStrip t).length ∧ (pyStrip t).length ≤ MAX_TEXT_LENGTH ∧
    MIN_KEYWORDS ≤ tn ∧ tn ≤ MAX_KEYWORDS ∧
    MIN_NGRAM ≤ nmin ∧ nmin ≤ MAX_NGRAM ∧
    MIN_NGRAM ≤ nmax ∧ nmax ≤ MAX_NGRAM ∧ nmin ≤ nmax := by
  unfold pydanticValidate validate_text at h
  simp only at h
  split_ifs at h with h1 h2 h3 h4 h5 h6 h7 h8 h9 <;>
    simp_all [MIN_TEXT_LENGTH, MAX_TEXT_LENGTH, MIN_KEYWORDS, MAX_KEYWORDS,
      MIN_NGRAM, MAX_NGRAM]

/-- A stripped text of admissible length is nonempty. -/
theorem pyStrip_ne_nil_of_len {t : Str} (h : MIN_TEXT_LENGTH ≤ (pyStrip t).length) :
    pyStrip t ≠ [] := by
  intro hnil
  rw [hnil] at h
  simp [MIN_TEXT_LENGTH] at h

/-- A validated text-path request reaches the stage runner and the endpoint
returns the aggregate built by runExtract on the stripped text. -/
theorem extract_ok_of_valid (env : Env) {t : Str} {tn nmin nmax : Int}
    {p : ExtractRequest} (hv : pydanticValidate (some t) tn nmin nmax = .ok p) :
    extract env (some t) tn nmin nmax = .ok (runExtract env (pyStrip t) tn nmin nmax) := by
  obtain ⟨hp, hlo, hhi, h1, h2, h3, h4, h5, h6, h7⟩ := pydanticValidate_some_ok hv
  unfold extract
  rw [hv]
  subst hp
  unfold extract_body
  simp only
  rw [if_neg (by omega)]
  rw [pyStrip_idem]
  rw [if_neg (pyStrip_ne_nil_of_len hlo)]

/-- With fewer words than n there is no n-gram of size n. -/
theorem ngramList_eq_nil {n : Nat} {ws : List Str} (h : ws.length < n) :
    ngramList n ws = [] := by
  unfold ngramList
  have : ws.length + 1 - n = 0 := by omega
  rw [this]
  rfl

/-- With fewer content words than the minimum n-gram size there are no
candidate n-grams at all. -/
theorem rawCandidates_eq_nil {nmin nmax : Nat} {ws : List Str}
    (h : ws.length < nmin) : rawCandidates nmin nmax ws = [] := by
  unfold rawCandidates
  rw [List.flatMap_eq_nil_iff]
  intro n hn
  rw [List.mem_range'_1] at hn
  exact ngramList_eq_nil (by omega)

/-- With fewer content words than the minimum n-gram size the vocabulary is
empty. -/
theorem featureNames_eq_nil {stop : List Str} {s : Str} {nmin nmax : Nat}
    (h : (contentTokens stop s).length < nmin) :
    featureNames stop s nmin nmax = [] := by
  unfold featureNames
  rw [rawCandidates_eq_nil h]
  rfl

/-- The recovered output of the TF-IDF block never exceeds top_n entries. -/
theorem tfidf_stage_length (env : Env) (text : Str) (nmin nmax top_n : Nat) :
    (orEmpty (tfidf_stage env text nmin nmax top_n)).length ≤ top_n := by
  simp only [tfidf_stage, orEmpty]
  split_ifs <;> simp [List.length_take_le]

/-- The recovered output of the KeyBERT block never exceeds top_n entries. -/
theorem keybert_stage_length (env : Env) (text : Str) (nmin nmax top_n : Nat) :
    (orEmpty (keybert_stage env text nmin nmax top_n)).length ≤ top_n := by
  simp only [keybert_stage, orEmpty]
  split_ifs <;> simp [List.length_take_le]

/-- Degenerate input: the TF-IDF block recovers to the empty list when there
are fewer content words than the minimum n-gram size. -/
theorem tfidf_stage_degenerate {env : Env} {text : Str} {nmin nmax top_n : Nat}
    (h : (contentTokens env.stop text).length < nmin) :
    orEmpty (tfidf_stage env text nmin nmax top_n) = [] := by
  unfold tfidf_stage orEmpty
  rw [featureNames_eq_nil h]
  split_ifs <;> simp

/-- Degenerate input: the KeyBERT block recovers to the empty list when
there are fewer content words than the minimum n-gram size. -/
theorem keybert_stage_degenerate {env : Env} {text : Str} {nmin nmax top_n : Nat}
    (h : (contentTokens env.stop text).length < nmin) :
    orEmpty (keybert_stage env text nmin nmax top_n) = [] := by
  unfold keybert_stage orEmpty
  rw [featureNames_eq_nil h]
  split_ifs <;> simp

/-- Membership in an insertion result. -/
theorem mem_insertDesc {key : Str → ℚ} {x w : Str} :
    ∀ {ys : List Str}, w ∈ insertDesc key x ys → w = x ∨ w ∈ ys := by
  intro ys
  induction ys with
  | nil => simp [insertDesc]
  | cons y ys ih =>
    simp only [insertDesc]
    split_ifs with h
    · intro hw
      simp only [List.mem_cons] at hw ⊢
      tauto
    · intro hw
      simp only [List.mem_cons] at hw ⊢
      rcases hw with hw | hw
      · tauto
      · rcases ih hw with hw | hw <;> tauto

/-- Insertion produces a permutation of the cons. -/
theorem insertDesc_perm (key : Str → ℚ) (x : Str) :
    ∀ ys : List Str, (insertDesc key x ys).Perm (x :: ys) := by
  intro ys
  induction ys with
  | nil => simp [insertDesc]
  | cons y ys ih =>
    simp only [insertDesc]
    split_ifs with h
    · exact List.Perm.refl _
    · exact (ih.cons y).trans (List.Perm.swap x y ys)

/-- Sorting permutes its input. -/
theorem sortDescBy_perm (key : Str → ℚ) :
    ∀ l : List Str, (sortDescBy key l).Perm l := by
  intro l
  induction l with
  | nil => exact List.Perm.refl _
  | cons a l ih =>
    exact (insertDesc_perm key a (sortDescBy key l)).trans (ih.cons a)

/-- Inserting an element smaller (alphabetically) than every element of a
list sorted by descending key with alphabetical tie-break keeps the list
sorted with the same tie-break. -/
theorem insertDesc_pairwise {key : Str → ℚ} {x : Str} :
    ∀ {ys : List Str}, ys.Pairwise (keyRel key) → (∀ y ∈ ys, x < y) →
      (insertDesc key x ys).Pairwise (keyRel key) := by
  intro ys
  induction ys with
  | nil => intro _ _; simp [insertDesc, List.pairwise_cons, keyRel]
  | cons y ys ih =>
    intro hys hx
    rw [List.pairwise_cons] at hys
    obtain ⟨hy, hys'⟩ := hys
    simp only [insertDesc]
    split_ifs with h
    · rw [List.pairwise_cons]
      constructor
      · intro z hz
        rcases List.mem_cons.mp hz with hz | hz
        · subst hz
          rcases lt_or_eq_of_le h with hlt | heq
          · exact Or.inl hlt
          · exact Or.inr ⟨heq.symm, hx z (by simp)⟩
        · have hyz : key z ≤ key y := by
            rcases hy z hz with hlt | ⟨heq, _⟩
            · exact le_of_lt hlt
            · exact le_of_eq heq.symm
          rcases lt_or_eq_of_le (le_trans hyz h) with hlt | heq
          · exact Or.inl hlt
          · exact Or.inr ⟨heq.symm, hx z (List.mem_cons_of_mem y hz)⟩
      · rw [List.pairwise_cons]
        exact ⟨hy, hys'⟩
    · rw [List.pairwise_cons]
      constructor
      · intro w hw
        rcases mem_insertDesc hw with hw | hw
        · subst hw
          exact Or.inl (lt_of_not_le h)
        · exact hy w hw
      · exact ih hys' (fun z hz => hx z (List.mem_cons_of_mem y hz))

/-- Sorting an alphabetically strictly sorted list by descending key yields
a list sorted by descending key with alphabetical tie-break: the stability
of the sort turns the alphabetical input order into the tie-break order. -/
theorem sortDescBy_pairwise (key : Str → ℚ) :
    ∀ {l : List Str}, l.Pairwise (fun a b => a < b) →
      (sortDescBy key l).Pairwise (keyRel key) := by
  intro l
  induction l with
  | nil => intro _; simp [sortDescBy]
  | cons a l ih =>
    intro hl
    rw [List.pairwise_cons] at hl
    obtain ⟨ha, hl'⟩ := hl
    refine insertDesc_pairwise (ih hl') ?_
    intro y hy
    exact ha y ((sortDescBy_perm key l).mem_iff.mp hy)

/-- Membership in a dedup insertion result. -/
theorem mem_dedupInsert {x w : Str} :
    ∀ {ys : List Str}, w ∈ dedupInsert x ys → w = x ∨ w ∈ ys := by
  intro ys
  induction ys with
  | nil => simp [dedupInsert]
  | cons y ys ih =>
    simp only [dedupInsert]
    split_ifs with h1 h2
    · intro hw
      simp only [List.mem_cons] at hw ⊢
      tauto
    · intro hw
      exact Or.inr hw
    · intro hw
      simp only [List.mem_cons] at hw ⊢
      rcases hw with hw | hw
      · tauto
      · rcases ih hw with hw | hw <;> tauto

/-- Dedup insertion keeps a list strictly sorted. -/
theorem dedupInsert_pairwise {x : Str} :
    ∀ {ys : List Str}, ys.Pairwise (fun a b => a < b) →
      (dedupInsert x ys).Pairwise (fun a b => a < b) := by
  intro ys
  induction ys with
  | nil => intro _; simp [dedupInsert, List.pairwise_cons]
  | cons y ys ih =>
    intro hys
    rw [List.pairwise_cons] at hys
    obtain ⟨hy, hys'⟩ := hys
    simp only [dedupInsert]
    split_ifs with h1 h2
    · rw [List.pairwise_cons]
      refine ⟨?_, by rw [List.pairwise_cons]; exact ⟨hy, hys'⟩⟩
      intro z hz
      rcases List.mem_cons.mp hz with hz | hz
      · subst hz; exact h1
      · exact lt_trans h1 (hy z hz)
    · rw [List.pairwise_cons]
      exact ⟨hy, hys'⟩
    · rw [List.pairwise_cons]
      constructor
      · intro w hw
        rcases mem_dedupInsert hw with hw | hw
        · subst hw
          rcases lt_trichotomy w y with hlt | heq | hgt
          · exact absurd hlt h1
          · exact absurd heq h2
          · exact hgt
        · exact hy w hw
      · exact ih hys'

/-- The deduplicating sort yields a strictly sorted vocabulary. -/
theorem sortedDedup_pairwise :
    ∀ l : List Str, (sortedDedup l).Pairwise (fun a b => a < b) := by
  intro l
  induction l with
  | nil => simp [sortedDedup]
  | cons a l ih => exact dedupInsert_pairwise ih

/-- The error component determines the result on the error side. -/
theorem errOf_eq_some {r : Except (Int × VErr) Response} {pr : Int × VErr} :
    errOf r = some pr ↔ r = .error pr := by
  cases r <;> simp [errOf]

/-- A head is a member. -/
theorem head?_mem {α : Type} {l : List α} {a : α} (h : l.head? = some a) :
    a ∈ l := by
  cases l <;> simp_all

set_option maxHeartbeats 1000000 in
/-- The error the text-path endpoint reports is the first entry of the
violated-constraint list, and the endpoint succeeds exactly when no
constraint is violated. -/
theorem extract_errOf (env : Env) (text : Option Str) (tn nmin nmax : Int) :
    errOf (extract env text tn nmin nmax)
      = (violatedConstraints text tn nmin nmax).head? := by
  cases text with
  | none =>
    simp only [extract, pydanticValidate, validate_text, extract_body,
      violatedConstraints, errOf]
    split_ifs <;> first
      | rfl
      | (exfalso; omega)
      | (simp only [pyStrip_idem]
         split_ifs <;> first | rfl | (exfalso; omega) | (exfalso; simp_all [MIN_TEXT_LENGTH]))
  | some v =>
    simp only [extract, pydanticValidate, validate_text, extract_body,
      violatedConstraints, errOf, pyStrip_idem]
    split_ifs <;> first
      | rfl
      | (exfalso; omega)
      | (simp only [pyStrip_idem]
         split_ifs <;> first | rfl | (exfalso; omega) | (exfalso; simp_all [MIN_TEXT_LENGTH]))

/-- Every violated-constraint entry carries status 400 or 422. -/
theorem violatedConstraints_status {text : Option Str} {tn nmin nmax : Int} :
    ∀ pr ∈ violatedConstraints text tn nmin nmax, pr.1 = 400 ∨ pr.1 = 422 := by
  intro pr hpr
  unfold violatedConstraints at hpr
  cases text <;> simp only [List.mem_append] at hpr <;>
    rcases hpr with ((((h | h) | h) | h) | h) | h <;>
    first | (split_ifs at h <;> simp_all) | simp_all

/-- When all the other constraints hold, a pydantic failure on a provided
text can only be the maximum-length bound. -/
theorem pydanticValidate_error_long {t : Str} {tn nmin nmax : Int} {e : VErr}
    (h : pydanticValidate (some t) tn nmin nmax = .error e)
    (h10 : ¬ (pyStrip t).length < MIN_TEXT_LENGTH)
    (htn1 : ¬ tn < MIN_KEYWORDS) (htn2 : ¬ MAX_KEYWORDS < tn)
    (hn1 : ¬ nmin < MIN_NGRAM) (hn2 : ¬ MAX_NGRAM < nmin)
    (hm1 : ¬ nmax < MIN_NGRAM) (hm2 : ¬ MAX_NGRAM < nmax)
    (hord : ¬ nmax < nmin) :
    e = VErr.textTooLong ∧ MAX_TEXT_LENGTH < (pyStrip t).length := by
  unfold pydanticValidate validate_text at h
  simp only at h
  split_ifs at h <;> simp_all

/-- The handler body cannot fail on a request pydantic accepted with a
provided text. -/
theorem extract_body_ok (env : Env) {t : Str} {tn nmin nmax : Int}
    {p : ExtractRequest} (hv : pydanticValidate (some t) tn nmin nmax = .ok p) :
    extract_body env p = .ok (runExtract env (pyStrip t) tn nmin nmax) := by
  have h := extract_ok_of_valid env hv
  unfold extract at h
  rw [hv] at h
  exact h

/-- An Except value is an error or an ok. -/
theorem exists_error_or_ok {A B : Type} (X : Except A B) :
    (∃ a, X = .error a) ∨ (∃ b, X = .ok b) := by
  cases X with
  | error a => exact Or.inl ⟨a, rfl⟩
  | ok b => exact Or.inr ⟨b, rfl⟩

/-- The error of the endpoint tail does not depend on the stage
environment. -/
theorem pdfTail_errOf_env (env env' : Env) (X : Except Unit Str)
    (tn nmin nmax : Int) :
    errOf (pdfTail env X tn nmin nmax) = errOf (pdfTail env' X tn nmin nmax) := by
  cases X with
  | error u => rfl
  | ok t =>
    unfold pdfTail
    dsimp only
    split_ifs with h10
    · rfl
    · cases hV : pydanticValidate (some t) tn nmin nmax with
      | error e => rfl
      | ok p =>
        dsimp only
        rw [extract_body_ok env hV, extract_body_ok env' hV]
        rfl

/-- Any error of the endpoint tail is the 400 of failed extraction or a too
short text, or the catch-all 500 on a text whose stripped length exceeds
MAX_TEXT_LENGTH. -/
theorem pdfTail_error_status {env : Env} {X : Except Unit Str}
    {tn nmin nmax : Int} {s : Int} {e : VErr}
    (htn1 : ¬ tn < MIN_KEYWORDS) (htn2 : ¬ MAX_KEYWORDS < tn)
    (hn1 : ¬ nmin < MIN_NGRAM) (hn2 : ¬ MAX_NGRAM < nmin)
    (hm1 : ¬ nmax < MIN_NGRAM) (hm2 : ¬ MAX_NGRAM < nmax)
    (hord : ¬ nmax < nmin)
    (h : pdfTail env X tn nmin nmax = .error (s, e)) :
    s = 400 ∨ (s = 500 ∧ e = VErr.serverError ∧
      ∃ t, X = .ok t ∧ MAX_TEXT_LENGTH < (pyStrip t).length) := by
  cases X with
  | error u =>
    unfold pdfTail at h
    dsimp only at h
    simp only [Except.error.injEq, Prod.mk.injEq] at h
    exact Or.inl h.1.symm
  | ok t =>
    unfold pdfTail at h
    dsimp only at h
    split_ifs at h with h10
    · simp only [Except.error.injEq, Prod.mk.injEq] at h
      exact Or.inl h.1.symm
    · rcases exists_error_or_ok (pydanticValidate (some t) tn nmin nmax) with
        ⟨e2, hV⟩ | ⟨p, hV⟩
      · rw [hV] at h
        dsimp only at h
        simp only [Except.error.injEq, Prod.mk.injEq] at h
        obtain ⟨he2, hlong⟩ :=
          pydanticValidate_error_long hV h10 htn1 htn2 hn1 hn2 hm1 hm2 hord
        exact Or.inr ⟨h.1.symm, h.2.symm, t, rfl, hlong⟩
      · rw [hV] at h
        dsimp only at h
        rw [extract_body_ok env hV] at h
        exact Except.noConfusion h

set_option maxHeartbeats 2000000 in
/-- The PDF endpoint error, if any, is independent of the analysis-stage
environment: every rejection happens before any stage runs. -/
theorem extract_pdf_errOf_env (env env' : Env)
    (P : List Nat → Except Unit (List (Option Str))) (f : Str) (c : List Nat)
    (tn nmin nmax : Int) :
    errOf (extract_pdf env P f c tn nmin nmax)
      = errOf (extract_pdf env' P f c tn nmin nmax) := by
  unfold extract_pdf
  split_ifs
  iterate 9 rfl
  exact pdfTail_errOf_env env env' _ tn nmin nmax

set_option maxHeartbeats 2000000 in
/-- Any error of the PDF endpoint is a 400 or 422 client error, except the
catch-all 500, which can only arise from an extracted text whose stripped
length exceeds MAX_TEXT_LENGTH. -/
theorem extract_pdf_error_status {env : Env}
    {P : List Nat → Except Unit (List (Option Str))} {f : Str} {c : List Nat}
    {tn nmin nmax : Int} {s : Int} {e : VErr}
    (h : extract_pdf env P f c tn nmin nmax = .error (s, e)) :
    s = 400 ∨ s = 422 ∨ (s = 500 ∧ e = VErr.serverError ∧
      ∃ t, extract_text_from_pdf P c = .ok t ∧
        MAX_TEXT_LENGTH < (pyStrip t).length) := by
  unfold extract_pdf at h
  split_ifs at h with h1 h2 h3 h4 h5 h6 h7 h8 h9
  case pos => simp_all
  case pos => simp_all
  case pos => simp_all
  case pos => simp_all
  case pos => simp_all
  case pos => simp_all
  case pos => simp_all
  case pos => simp_all
  case pos => simp_all
  case neg =>
    rcases pdfTail_error_status h1 h2 h3 h4 h5 h6 h9 h with hs | ⟨hs, he, t, ht, hl⟩
    · exact Or.inl hs
    · exact Or.inr (Or.inr ⟨hs, he, t, ht, hl⟩)

deriving instance DecidableEq for Except

/-- A concrete environment in which every model is loaded, no library call
raises, the stop list is empty and all scores are zero. -/
def envW : Env :=
  { stop := [], score := fun _ => 0, tfidfExc := false
  , kwLoaded := true, kbScore := fun _ => 0, kbExc := false
  , nlpLoaded := true, chunks := fun _ => [], nlpExc := false
  , summLoaded := true, summRun := fun s => .ok s
  , classLoaded := true, classRun := fun _ => .ok (some []) }

/-- The environment envW with the summarization model unavailable. -/
def envNS : Env :=
  { stop := [], score := fun _ => 0, tfidfExc := false
  , kwLoaded := true, kbScore := fun _ => 0, kbExc := false
  , nlpLoaded := true, chunks := fun _ => [], nlpExc := false
  , summLoaded := false, summRun := fun s => .ok s
  , classLoaded := true, classRun := fun _ => .ok (some []) }

/-- A concrete eleven-character text. -/
def tW : Str := "aaa bbb ccc".toList

/-- The request pydantic builds from tW with top_n 5 and unigram range. -/
def pW : ExtractRequest :=
  { text := some (pyStrip tW), top_n := 5, ng_min := 1, ng_max := 1 }

/-- A trivial PDF reader that yields no pages. -/
def pdf0 : List Nat → Except Unit (List (Option Str)) := fun _ => .ok []

/-- C1: once a request has passed validation the extract endpoint returns an
aggregate record holding all five stage fields and never fails as a whole;
each field equals its own stage's recovered result, so a failing stage
contributes its empty default ([] or the empty string) while every other
stage still runs and contributes its own result; the conjuncts spell out
that a stage error (model unavailable, library exception, malformed
output) yields that stage's empty default. -/
theorem C1_extract_isolation (env : Env) (t : Str) (tn nmin nmax : Int)
    (p : ExtractRequest)
    (hv : pydanticValidate (some t) tn nmin nmax = .ok p) :
    extract env (some t) tn nmin nmax
        = .ok { rule_keywords :=
                  orEmpty (tfidf_stage env (pyStrip t) nmin.toNat nmax.toNat tn.toNat)
              , ml_keywords :=
                  orEmpty (keybert_stage env (pyStrip t) nmin.toNat nmax.toNat tn.toNat)
              , phrases := orEmpty (phrase_stage env (pyStrip t))
              , summary := summary_stage env (pyStrip t)
              , topic := topic_stage env (pyStrip t) } ∧
    (∀ u, tfidf_stage env (pyStrip t) nmin.toNat nmax.toNat tn.toNat = .error u →
        orEmpty (tfidf_stage env (pyStrip t) nmin.toNat nmax.toNat tn.toNat) = []) ∧
    (∀ u, keybert_stage env (pyStrip t) nmin.toNat nmax.toNat tn.toNat = .error u →
        orEmpty (keybert_stage env (pyStrip t) nmin.toNat nmax.toNat tn.toNat) = []) ∧
    (∀ u, phrase_stage env (pyStrip t) = .error u →
        orEmpty (phrase_stage env (pyStrip t)) = []) ∧
    (env.summLoaded = true → 100 < (pyStrip t).length →
        env.summRun ((pyStrip t).take 1024) = .error () →
        summary_stage env (pyStrip t) = []) ∧
    (env.summLoaded = false → summary_stage env (pyStrip t) = []) ∧
    (env.classLoaded = true → env.classRun ((pyStrip t).take 512) = .error () →
        topic_stage env (pyStrip t) = []) ∧
    (env.classLoaded = false → topic_stage env (pyStrip t) = []) := by
  refine ⟨?_, ?_, ?_, ?_, ?_, ?_, ?_, ?_⟩
  · have h := extract_ok_of_valid env hv
    rw [h]
    unfold runExtract
    rw [pyStrip_idem]
  · intro u hu
    rw [hu]
    rfl
  · intro u hu
    rw [hu]
    rfl
  · intro u hu
    rw [hu]
    rfl
  · intro hl hlen herr
    simp [summary_stage, hl, hlen, herr]
  · intro hl
    simp [summary_stage, hl]
  · intro hl herr
    simp [topic_stage, hl, herr]
  · intro hl
    simp [topic_stage, hl]

/-- Witness for C1 at a concrete validated request. -/
theorem C1_extract_isolation_witness :
    extract envW (some tW) 5 1 1
        = .ok { rule_keywords := orEmpty (tfidf_stage envW (pyStrip tW) 1 1 5)
              , ml_keywords := orEmpty (keybert_stage envW (pyStrip tW) 1 1 5)
              , phrases := orEmpty (phrase_stage envW (pyStrip tW))
              , summary := summary_stage envW (pyStrip tW)
              , topic := topic_stage envW (pyStrip tW) } :=
  (C1_extract_isolation envW tW 5 1 1 pW (by decide)).1

/-- C2 (amended): for every raw text-path input, the reported validation
error is the first violated constraint in the order the code checks them:
text length bounds (on the stripped text, when text is provided) first,
then keyword-count (top_n) bounds, then the n-gram lower bound's absolute
bounds, then the n-gram upper bound's absolute bounds, then the n-gram
ordering constraint (checked only when both n-gram values are within their
absolute bounds), and last, in the handler with status 400 instead of 422,
the missing-text check; the request is accepted exactly when no constraint
is violated. -/
theorem C2_validation_order (env : Env) (text : Option Str) (tn nmin nmax : Int) :
    errOf (extract env text tn nmin nmax)
      = (violatedConstraints text tn nmin nmax).head? :=
  extract_errOf env text tn nmin nmax

/-- Counterexample to C2 as stated: on a request violating both the n-gram
ordering constraint (ngramMin 3 over ngramMax 1) and the keyword-count
bounds (topN 100), the claimed precedence puts the ordering error first,
but the code reports the keyword-count error. -/
theorem C2_validation_order_counterexample :
    extract envW (some ("plenty long text".toList)) 100 3 1
        = .error (422, VErr.topNOutOfBounds) ∧
    VErr.topNOutOfBounds ≠ VErr.ngOrder := by
  exact ⟨by decide, by decide⟩

/-- C3 (amended): for a validated request whose stripped text has at most
100 characters, the summary field is the text itself provided the
summarizer model is loaded; when the model is unavailable the summary
field is the empty string instead. -/
theorem C3_summary_short_text (env : Env) (t : Str) (tn nmin nmax : Int)
    (p : ExtractRequest) (r : Response)
    (hv : pydanticValidate (some t) tn nmin nmax = .ok p)
    (hr : extract env (some t) tn nmin nmax = .ok r)
    (hlen : (pyStrip t).length ≤ 100) :
    (env.summLoaded = true → r.summary = pyStrip t) ∧
    (env.summLoaded = false → r.summary = []) := by
  have h := extract_ok_of_valid env hv
  rw [h] at hr
  injection hr with hr
  have hsum : r.summary = summary_stage env (pyStrip (pyStrip t)) := by
    rw [← hr]
    rfl
  rw [pyStrip_idem] at hsum
  constructor
  · intro hl
    rw [hsum]
    simp [summary_stage, hl, Nat.not_lt.mpr hlen]
  · intro hl
    rw [hsum]
    simp [summary_stage, hl]

/-- Witness for C3 at a concrete short validated request with the
summarizer loaded. -/
theorem C3_summary_short_text_witness :
    (envW.summLoaded = true → (runExtract envW (pyStrip tW) 5 1 1).summary = pyStrip tW) ∧
    (envW.summLoaded = false → (runExtract envW (pyStrip tW) 5 1 1).summary = []) :=
  C3_summary_short_text envW tW 5 1 1 pW (runExtract envW (pyStrip tW) 5 1 1)
    (by decide) (by decide) (by decide)

/-- Counterexample to C3 as stated: the same short validated request run
with the summarizer model unavailable yields an empty summary, not the
text itself. -/
theorem C3_summary_short_text_counterexample :
    pydanticValidate (some tW) 5 1 1 = .ok pW ∧
    (pyStrip tW).length ≤ 100 ∧
    extract envNS (some tW) 5 1 1 = .ok (runExtract envNS (pyStrip tW) 5 1 1) ∧
    (runExtract envNS (pyStrip tW) 5 1 1).summary ≠ pyStrip tW := by
  exact ⟨by decide, by decide, by decide, by decide⟩

/-- C4 (amended): every validation failure on the text path is a 4xx client
error (400 or 422) that does not depend on the analysis-stage environment,
and every failure of the PDF path is a 4xx client error, independent of
the analysis-stage environment, with one exception: extracted PDF text
whose stripped length exceeds MAX_TEXT_LENGTH is surfaced as a 500 server
error by the blanket exception handler. -/
theorem C4_validation_client_errors (env env' : Env)
    (P : List Nat → Except Unit (List (Option Str)))
    (f : Str) (c : List Nat) (text : Option Str) (tn nmin nmax : Int) :
    (∀ s e, extract env text tn nmin nmax = .error (s, e) → s = 400 ∨ s = 422) ∧
    (∀ s e, extract env text tn nmin nmax = .error (s, e) →
        extract env' text tn nmin nmax = .error (s, e)) ∧
    (∀ s e, extract_pdf env P f c tn nmin nmax = .error (s, e) →
        s = 400 ∨ s = 422 ∨ (s = 500 ∧ e = VErr.serverError ∧
          ∃ t2, extract_text_from_pdf P c = .ok t2 ∧
            MAX_TEXT_LENGTH < (pyStrip t2).length)) ∧
    (∀ s e, extract_pdf env P f c tn nmin nmax = .error (s, e) →
        extract_pdf env' P f c tn nmin nmax = .error (s, e)) := by
  refine ⟨?_, ?_, ?_, ?_⟩
  · intro s e h
    have h1 := extract_errOf env text tn nmin nmax
    rw [h] at h1
    simp only [errOf] at h1
    have hm := head?_mem h1.symm
    exact violatedConstraints_status _ hm
  · intro s e h
    have h1 := extract_errOf env text tn nmin nmax
    have h2 := extract_errOf env' text tn nmin nmax
    rw [h] at h1
    simp only [errOf] at h1
    rw [← h1] at h2
    exact errOf_eq_some.mp h2
  · intro s e h
    exact extract_pdf_error_status h
  · intro s e h
    have h2 := extract_pdf_errOf_env env env' P f c tn nmin nmax
    rw [h] at h2
    simp only [errOf] at h2
    exact errOf_eq_some.mp h2.symm

/-- Witness for C4 at a concrete failing text-path request. -/
theorem C4_validation_client_errors_witness :
    extract envW (some tW) 100 1 1 = .error (422, VErr.topNOutOfBounds) ∧
    ((422 : Int) = 400 ∨ (422 : Int) = 422) :=
  ⟨by decide,
   (C4_validation_client_errors envW envW pdf0 [] [] (some tW) 100 1 1).1
     422 VErr.topNOutOfBounds (by decide)⟩

/-- Stripping a long run of letters followed by the newline a PDF page
break adds removes exactly that newline. -/
theorem pyStrip_an (n : Nat) :
    pyStrip (List.replicate (n + 1) 'a' ++ ['\n']) = List.replicate (n + 1) 'a' := by
  have hrep : (List.replicate (n + 1) 'a').dropWhile Char.isWhitespace
      = List.replicate (n + 1) 'a' := by
    rw [List.replicate_succ, List.dropWhile_cons]
    simp
  have h1 : (List.replicate (n + 1) 'a' ++ ['\n']).dropWhile Char.isWhitespace
      = List.replicate (n + 1) 'a' ++ ['\n'] := by
    rw [List.replicate_succ, List.cons_append, List.dropWhile_cons]
    simp
  have h2 : (List.replicate (n + 1) 'a' ++ ['\n']).reverse
      = '\n' :: List.replicate (n + 1) 'a' := by
    rw [List.reverse_append, List.reverse_replicate]
    rfl
  have h3 : ('\n' :: List.replicate (n + 1) 'a').dropWhile Char.isWhitespace
      = List.replicate (n + 1) 'a' := by
    rw [List.dropWhile_cons]
    simp [hrep]
  unfold pyStrip
  rw [h1, h2, h3, List.reverse_replicate]

/-- The previous lemma at the concrete length used by the counterexample. -/
theorem pyStrip_an50 :
    pyStrip (List.replicate 50001 'a' ++ ['\n']) = List.replicate 50001 'a' := by
  have h := pyStrip_an 50000
  norm_num at h
  exact h

/-- A provided text whose stripped length exceeds the maximum bound fails
pydantic validation with the too-long error. -/
theorem pydanticValidate_too_long {v : Str} {tn nmin nmax : Int}
    (h1 : ¬ (pyStrip v).length < MIN_TEXT_LENGTH)
    (h2 : MAX_TEXT_LENGTH < (pyStrip v).length) :
    pydanticValidate (some v) tn nmin nmax = .error VErr.textTooLong := by
  unfold pydanticValidate validate_text
  dsimp only
  rw [if_neg h1, if_pos h2]

/-- A long enough extracted text that pydantic rejects is surfaced by the
endpoint tail as a 500. -/
theorem pdfTail_500 {env : Env} {v : Str} {tn nmin nmax : Int} {e : VErr}
    (h1 : ¬ (pyStrip v).length < MIN_TEXT_LENGTH)
    (hV : pydanticValidate (some v) tn nmin nmax = .error e) :
    pdfTail env (.ok v) tn nmin nmax = .error (500, VErr.serverError) := by
  unfold pdfTail
  dsimp only
  rw [if_neg h1, hV]

/-- PDF extraction over a single nonblank page yields that page's text with
the trailing page-break newline. -/
theorem extract_text_from_pdf_single_page
    {P : List Nat → Except Unit (List (Option Str))} {c : List Nat} {txt : Str}
    (hP : P c = .ok [some txt])
    (hne : ¬ pyStrip (txt ++ ['\n']) = []) :
    extract_text_from_pdf P c = .ok (txt ++ ['\n']) := by
  unfold extract_text_from_pdf
  rw [hP]
  simp only [List.foldl_cons, List.foldl_nil]
  rw [List.nil_append]
  rw [if_neg hne]

/-- Counterexample to C4 as stated: a PDF whose extracted text strips to
more than MAX_TEXT_LENGTH characters is outside the length bounds, yet the
endpoint rejects it with a 500 server error rather than a 4xx client
error. -/
theorem C4_validation_client_errors_counterexample :
    extract_pdf envW
        (fun _ => .ok [some (List.replicate 50001 'a')])
        ("doc.pdf".toList) [0] 5 1 1
      = .error (500, VErr.serverError) ∧
    ¬ ((500 : Int) = 400 ∨ (500 : Int) = 422) := by
  have hne : ¬ (pyStrip (List.replicate 50001 'a' ++ ['\n']) = []) := by
    rw [pyStrip_an50]
    intro hc
    have hlen := congrArg List.length hc
    rw [List.length_replicate, List.length_nil] at hlen
    exact absurd hlen (by decide)
  have h1 : ¬ (pyStrip (List.replicate 50001 'a' ++ ['\n'])).length
      < MIN_TEXT_LENGTH := by
    rw [pyStrip_an50, List.length_replicate]
    decide
  have h2 : MAX_TEXT_LENGTH
      < (pyStrip (List.replicate 50001 'a' ++ ['\n'])).length := by
    rw [pyStrip_an50, List.length_replicate]
    decide
  constructor
  · unfold extract_pdf
    rw [if_neg (by decide), if_neg (by decide), if_neg (by decide),
        if_neg (by decide), if_neg (by decide), if_neg (by decide),
        if_neg (by decide), if_neg (by decide), if_neg (by decide)]
    rw [extract_text_from_pdf_single_page rfl hne]
    exact pdfTail_500 h1 (pydanticValidate_too_long h1 h2)
  · decide

/-- C5: for every validated request the rule-based and the ML keyword lists
each hold at most topN entries, and when the stripped text has fewer
content tokens than ngramMin both lists are empty while the request still
succeeds. -/
theorem C5_keyword_count_bounds (env : Env) (t : Str) (tn nmin nmax : Int)
    (p : ExtractRequest) (r : Response)
    (hv : pydanticValidate (some t) tn nmin nmax = .ok p)
    (hr : extract env (some t) tn nmin nmax = .ok r) :
    r.rule_keywords.length ≤ tn.toNat ∧ r.ml_keywords.length ≤ tn.toNat ∧
    ((contentTokens env.stop (pyStrip t)).length < nmin.toNat →
        r.rule_keywords = [] ∧ r.ml_keywords = []) := by
  have h := extract_ok_of_valid env hv
  rw [h] at hr
  injection hr with hr
  have h1 : r.rule_keywords
      = orEmpty (tfidf_stage env (pyStrip (pyStrip t)) nmin.toNat nmax.toNat tn.toNat) := by
    rw [← hr]
    rfl
  have h2 : r.ml_keywords
      = orEmpty (keybert_stage env (pyStrip (pyStrip t)) nmin.toNat nmax.toNat tn.toNat) := by
    rw [← hr]
    rfl
  rw [pyStrip_idem] at h1 h2
  refine ⟨?_, ?_, ?_⟩
  · rw [h1]
    exact tfidf_stage_length env (pyStrip t) nmin.toNat nmax.toNat tn.toNat
  · rw [h2]
    exact keybert_stage_length env (pyStrip t) nmin.toNat nmax.toNat tn.toNat
  · intro hdeg
    exact ⟨h1.trans (tfidf_stage_degenerate hdeg),
           h2.trans (keybert_stage_degenerate hdeg)⟩

/-- Witness for C5 at a concrete validated request. -/
theorem C5_keyword_count_bounds_witness :
    (runExtract envW (pyStrip tW) 5 1 1).rule_keywords.length ≤ (5 : Int).toNat ∧
    (runExtract envW (pyStrip tW) 5 1 1).ml_keywords.length ≤ (5 : Int).toNat ∧
    ((contentTokens envW.stop (pyStrip tW)).length < (1 : Int).toNat →
        (runExtract envW (pyStrip tW) 5 1 1).rule_keywords = [] ∧
        (runExtract envW (pyStrip tW) 5 1 1).ml_keywords = []) :=
  C5_keyword_count_bounds envW tW 5 1 1 pW (runExtract envW (pyStrip tW) 5 1 1)
    (by decide) (by decide)

/-- C6: on a validated request whose lexical stage succeeds, the returned
rule keywords are the topN feature n-grams ordered by descending TF-IDF
score, with equal-score n-grams appearing in the alphabetical order of
their text: they are a take of a permutation of the vocabulary that is
pairwise sorted by the score-then-alphabetical relation. -/
theorem C6_rule_keywords_sorted (env : Env) (t : Str) (tn nmin nmax : Int)
    (p : ExtractRequest) (r : Response) (ks : List Str)
    (hv : pydanticValidate (some t) tn nmin nmax = .ok p)
    (hr : extract env (some t) tn nmin nmax = .ok r)
    (hs : tfidf_stage env (pyStrip t) nmin.toNat nmax.toNat tn.toNat = .ok ks) :
    r.rule_keywords = ks ∧
    ∃ sorted : List Str,
      sorted.Perm (featureNames env.stop (pyStrip t) nmin.toNat nmax.toNat) ∧
      sorted.Pairwise (keyRel env.score) ∧ ks = sorted.take tn.toNat := by
  have h := extract_ok_of_valid env hv
  rw [h] at hr
  injection hr with hr
  have h1 : r.rule_keywords
      = orEmpty (tfidf_stage env (pyStrip (pyStrip t)) nmin.toNat nmax.toNat tn.toNat) := by
    rw [← hr]
    rfl
  rw [pyStrip_idem] at h1
  constructor
  · rw [h1, hs]
    rfl
  · unfold tfidf_stage at hs
    dsimp only at hs
    split_ifs at hs with hexc hfeats
    injection hs with hs
    refine ⟨sortDescBy env.score
        (featureNames env.stop (pyStrip t) nmin.toNat nmax.toNat),
      sortDescBy_perm _ _, ?_, hs.symm⟩
    exact sortDescBy_pairwise env.score (sortedDedup_pairwise _)

/-- Witness for C6 at a concrete request on which the lexical stage
succeeds. -/
theorem C6_rule_keywords_sorted_witness :
    (runExtract envW (pyStrip tW) 5 1 1).rule_keywords
        = (sortDescBy envW.score (featureNames envW.stop (pyStrip tW) 1 1)).take 5 ∧
    ∃ sorted : List Str,
      sorted.Perm (featureNames envW.stop (pyStrip tW) 1 1) ∧
      sorted.Pairwise (keyRel envW.score) ∧
      (sortDescBy envW.score (featureNames envW.stop (pyStrip tW) 1 1)).take 5
        = sorted.take 5 :=
  C6_rule_keywords_sorted envW tW 5 1 1 pW (runExtract envW (pyStrip tW) 5 1 1)
    ((sortDescBy envW.score (featureNames envW.stop (pyStrip tW) 1 1)).take 5)
    (by decide) (by decide) (by decide)

/-- C7: at startup, a spaCy load failure aborts the process with that
error, a KeyBERT load failure likewise, while a summarizer or classifier
load failure leaves startup successful with that stage reported as not
loaded by the health endpoint. -/
theorem C7_startup_failure_policy (sp kb su cl : Except Str Unit) :
    (∀ e, sp = .error e → load_models sp kb su cl = .error e) ∧
    (∀ e, sp = .ok () → kb = .error e → load_models sp kb su cl = .error e) ∧
    (sp = .ok () → kb = .ok () →
      ∃ st, load_models sp kb su cl = .ok st ∧
        health_check st = { spacy := true, keybert := true
                          , summarizer := su.isOk, classifier := cl.isOk }) := by
  refine ⟨?_, ?_, ?_⟩
  · intro e he
    subst he
    rfl
  · intro e hsp hkb
    subst hsp
    subst hkb
    rfl
  · intro hsp hkb
    subst hsp
    subst hkb
    refine ⟨_, rfl, ?_⟩
    unfold health_check
    cases su <;> cases cl <;> rfl

/-- Witness for C7: a summarizer load failure leaves the service up with
the summarizer reported unavailable. -/
theorem C7_startup_failure_policy_witness :
    ∃ st, load_models (.ok ()) (.ok ()) (.error ['x']) (.ok ()) = .ok st ∧
      health_check st = { spacy := true, keybert := true
                        , summarizer := false, classifier := true } :=
  (C7_startup_failure_policy (.ok ()) (.ok ()) (.error ['x']) (.ok ())).2.2 rfl rfl

/-- C8: text length is measured on the whitespace-stripped text and the
minimum bound is inclusive: a stripped length of exactly
MIN_TEXT_LENGTH - 1 is rejected as too short, a stripped length of exactly
MIN_TEXT_LENGTH is accepted with the stripped text stored. -/
theorem C8_trim_length_boundary (t : Str) :
    ((pyStrip t).length = MIN_TEXT_LENGTH - 1 →
        validate_text (some t) = .error VErr.textTooShort) ∧
    ((pyStrip t).length = MIN_TEXT_LENGTH →
        validate_text (some t) = .ok (some (pyStrip t))) := by
  unfold validate_text
  dsimp only
  constructor
  · intro h
    rw [if_pos (by rw [h]; decide)]
  · intro h
    rw [if_neg (by rw [h]; decide), if_neg (by rw [h]; decide)]

/-- Witness for C8 at two concrete texts with stripped lengths 9 and 10. -/
theorem C8_trim_length_boundary_witness :
    ((pyStrip ("  abcdefghi ".toList)).length = MIN_TEXT_LENGTH - 1 ∧
        validate_text (some ("  abcdefghi ".toList)) = .error VErr.textTooShort) ∧
    ((pyStrip (" abcdefghij  ".toList)).length = MIN_TEXT_LENGTH ∧
        validate_text (some (" abcdefghij  ".toList))
          = .ok (some (pyStrip (" abcdefghij  ".toList)))) :=
  ⟨⟨by decide, (C8_trim_length_boundary ("  abcdefghi ".toList)).1 (by decide)⟩,
   ⟨by decide, (C8_trim_length_boundary (" abcdefghij  ".toList)).2 (by decide)⟩⟩

/-- C9 (amended): provided the three form parameters are within the bounds
FastAPI enforces before the handler runs, the PDF endpoint rejects with a
400, before any extraction or analysis work, every upload whose filename
does not end in ".pdf" case-insensitively, and every upload of zero bytes;
the result does not depend on the PDF reader or the stage environment. -/
theorem C9_pdf_upload_guards (env : Env)
    (P : List Nat → Except Unit (List (Option Str)))
    (f : Str) (c : List Nat) (tn nmin nmax : Int)
    (h1 : MIN_KEYWORDS ≤ tn) (h2 : tn ≤ MAX_KEYWORDS)
    (h3 : MIN_NGRAM ≤ nmin) (h4 : nmin ≤ MAX_NGRAM)
    (h5 : MIN_NGRAM ≤ nmax) (h6 : nmax ≤ MAX_NGRAM) :
    (lowerEndsWithPdf f = false →
        extract_pdf env P f c tn nmin nmax = .error (400, VErr.badFileType)) ∧
    (lowerEndsWithPdf f = true → c.length = 0 →
        extract_pdf env P f c tn nmin nmax = .error (400, VErr.emptyFile)) := by
  unfold extract_pdf
  constructor
  · intro hf
    rw [if_neg (not_lt.mpr h1), if_neg (not_lt.mpr h2), if_neg (not_lt.mpr h3),
        if_neg (not_lt.mpr h4), if_neg (not_lt.mpr h5), if_neg (not_lt.mpr h6),
        if_pos (by rw [hf]; rfl)]
  · intro hf hc
    rw [if_neg (not_lt.mpr h1), if_neg (not_lt.mpr h2), if_neg (not_lt.mpr h3),
        if_neg (not_lt.mpr h4), if_neg (not_lt.mpr h5), if_neg (not_lt.mpr h6),
        if_neg (by rw [hf]; decide), if_pos hc]

/-- Witness for C9 at a concrete upload with a non-PDF filename. -/
theorem C9_pdf_upload_guards_witness :
    lowerEndsWithPdf ("doc.txt".toList) = false ∧
    extract_pdf envW pdf0 ("doc.txt".toList) [] 10 1 3
      = .error (400, VErr.badFileType) :=
  ⟨by decide,
   (C9_pdf_upload_guards envW pdf0 ("doc.txt".toList) [] 10 1 3
     (by decide) (by decide) (by decide) (by decide) (by decide) (by decide)).1
     (by decide)⟩

/-- Counterexample to C9 as stated: an upload with a non-PDF filename (and
zero bytes) accompanied by an out-of-bounds topN form value is rejected
with a 422 from form validation, not with the claimed 400. -/
theorem C9_pdf_upload_guards_counterexample :
    lowerEndsWithPdf ("doc.txt".toList) = false ∧
    extract_pdf envW pdf0 ("doc.txt".toList) [] 999 1 3
      = .error (422, VErr.topNOutOfBounds) ∧
    ((422 : Int), VErr.topNOutOfBounds) ≠ ((400 : Int), VErr.badFileType) := by
  exact ⟨by decide, by decide, by decide⟩

/-- C10: the extract endpoint is invariant under leading and trailing
whitespace: whenever the stripped text passes validation, running the
endpoint on the original text and on the stripped text yields the same
result in every field, because validation stores the stripped text and
every stage operates on it. -/
theorem C10_strip_invariance (env : Env) (t : Str) (tn nmin nmax : Int)
    (p : ExtractRequest)
    (hv : pydanticValidate (some (pyStrip t)) tn nmin nmax = .ok p) :
    extract env (some t) tn nmin nmax
      = extract env (some (pyStrip t)) tn nmin nmax := by
  have hpv : pydanticValidate (some t) tn nmin nmax
      = pydanticValidate (some (pyStrip t)) tn nmin nmax := by
    unfold pydanticValidate validate_text
    dsimp only
    rw [pyStrip_idem]
  unfold extract
  rw [hpv]

/-- Witness for C10 at a concrete padded text. -/
theorem C10_strip_invariance_witness :
    extract envW (some ("  aaa bbb ccc  ".toList)) 5 1 1
      = extract envW (some (pyStrip ("  aaa bbb ccc  ".toList))) 5 1 1 :=
  C10_strip_invariance envW ("  aaa bbb ccc  ".toList) 5 1 1 pW (by decide)
